import Mathlib

/-!
Shallow embedding of the phantom-stories algebraic data types: the
four-variant Resource type in its authoritative revision (the revision of
src/unions/Resource.ts that defines both mapSafe and ap), the two
Validation revisions (the authoritative Passing and Failing one, and the
older Success and Failure one), and the overPromise adapter.

JavaScript exceptions are modelled explicitly with Except: a function
passed to map, mapSafe or ap has type T to Except JSException R, where an
error value records whether the thrown value is an instance of the
built-in Error class.  The untyped callability check in Data.ap is
modelled by a sum of callable and non-callable payloads.  The optional
params field is embedded as a type parameter, which callers may
instantiate with an Option type.
-/

namespace PhantomStories

/-- A JavaScript value thrown as an exception or used to reject a
promise: either an instance of the built-in Error class, carrying its
message string, or any other value, carrying its string coercion. -/
inductive JSException : Type where
  | errObj : String → JSException
  | otherVal : String → JSException
deriving DecidableEq

/-- The message string derived from a thrown value, exactly as computed
at the catch sites of the source: the message field when the value is an
Error instance, its string coercion otherwise. -/
def errorMessage : JSException → String
  | .errObj m => m
  | .otherVal s => s

/-- A primitive JavaScript value.  It serves as the payload of a
non-callable Data value in ap, and supplies the undefined and null cases
needed to state the getDataOr claim. -/
inductive JSPrim : Type where
  | undef
  | null
  | num : Int → JSPrim
  | str : String → JSPrim
  | boolean : Bool → JSPrim
deriving DecidableEq

/-- The value stored on the function side of ap.  The runtime check in
Data.ap, testing whether typeof the held value is a function, splits the
payload into callable values (functions from A that may throw) and
non-callable primitive values. -/
inductive FnVal (A B : Type) : Type where
  | callable : (A → Except JSException B) → FnVal A B
  | notCallable : JSPrim → FnVal A B

/-- The Resource sum type of the authoritative revision: Data carries a
value and params, Query and Empty carry params, Failure carries a list of
messages and params. -/
inductive Resource (T Q : Type) : Type where
  | Data : T → Q → Resource T Q
  | Query : Q → Resource T Q
  | Empty : Q → Resource T Q
  | Failure : List String → Q → Resource T Q

namespace Resource

/-- The params field shared by all four variants. -/
def params : Resource T Q → Q
  | .Data _ p => p
  | .Query p => p
  | .Empty p => p
  | .Failure _ p => p

/-- map of the authoritative revision.  Data.map applies fn to the held
value with no try block, so a thrown exception propagates to the caller;
a normal result is wrapped as Data with the params of the receiver.
Query.map, Empty.map and Failure.map return the receiver unchanged. -/
def map (r : Resource T Q) (fn : T → Except JSException R) :
    Except JSException (Resource R Q) :=
  match r with
  | .Data v p =>
      match fn v with
      | .ok result => .ok (.Data result p)
      | .error e => .error e
  | .Query p => .ok (.Query p)
  | .Empty p => .ok (.Empty p)
  | .Failure m p => .ok (.Failure m p)

/-- mapSafe of the authoritative revision.  Data.mapSafe applies fn
inside a try block: a normal result is wrapped as Data with the params of
the receiver, and a thrown value is caught and turned into a Failure
holding the single derived message, with the same params.  Query.mapSafe,
Empty.mapSafe and Failure.mapSafe return the receiver unchanged without
consulting fn. -/
def mapSafe (r : Resource T Q) (fn : T → Except JSException R) :
    Resource R Q :=
  match r with
  | .Data v p =>
      match fn v with
      | .ok result => .Data result p
      | .error e => .Failure [errorMessage e] p
  | .Query p => .Query p
  | .Empty p => .Empty p
  | .Failure m p => .Failure m p

/-- The fixed diagnostic message of the defensive branch of Data.ap. -/
def apNotFunctionMessage : String :=
  "Resource.ap called on Data variant that does not contain a function"

/-- ap: the receiver is the function side and the argument the value
side.  Data.ap first checks that the held value is callable; the
defensive branch returns the diagnostic Failure with the params of the
argument.  With a callable value, a non-Data argument is rebuilt in its
own variant with its own payload and params, and a Data argument is
mapped with the held function (through map, so a throw propagates).
Query.ap, Empty.ap and Failure.ap rebuild their own variant with the
params taken from the argument, Failure keeping its own messages. -/
def ap (a : Resource (FnVal A B) Q) (b : Resource A QVal) :
    Except JSException (Resource B QVal) :=
  match a with
  | .Data v _ =>
      match v with
      | .notCallable _ => .ok (.Failure [apNotFunctionMessage] b.params)
      | .callable f =>
          match b with
          | .Query p => .ok (.Query p)
          | .Empty p => .ok (.Empty p)
          | .Failure m p => .ok (.Failure m p)
          | .Data bv bp => map (.Data bv bp) f
  | .Query _ => .ok (.Query b.params)
  | .Empty _ => .ok (.Empty b.params)
  | .Failure m _ => .ok (.Failure m b.params)

/-- getDataOr: Data returns the stored value, ignoring the argument; all
other variants return the fallback argument. -/
def getDataOr : Resource T Q → T → T
  | .Data v _, _ => v
  | .Query _, fallback => fallback
  | .Empty _, fallback => fallback
  | .Failure _ _, fallback => fallback

end Resource

/-- The settled outcome of a JavaScript promise: fulfilled with a value,
or rejected with a thrown value. -/
inductive PromiseOutcome (R : Type) : Type where
  | fulfilled : R → PromiseOutcome R
  | rejected : JSException → PromiseOutcome R

/-- promise.then with a fulfillment handler and a rejection handler, on a
settled promise: the returned promise fulfills with the result of the
handler run on the outcome, and rejects only when that handler itself
throws. -/
def promiseThen (p : PromiseOutcome R)
    (onFulfilled : R → Except JSException S)
    (onRejected : JSException → Except JSException S) : PromiseOutcome S :=
  match p with
  | .fulfilled v =>
      match onFulfilled v with
      | .ok s => .fulfilled s
      | .error e => .rejected e
  | .rejected e =>
      match onRejected e with
      | .ok s => .fulfilled s
      | .error e2 => .rejected e2

/-- overPromise: wraps a promise through promise.then with two handlers,
fulfilling with Data of the value and the given params, or, on rejection,
with Failure of the single derived message and the given params. -/
def overPromise (params : Q) (p : PromiseOutcome R) :
    PromiseOutcome (Resource R Q) :=
  promiseThen p (fun v => .ok (.Data v params))
    (fun e => .ok (.Failure [errorMessage e] params))

/-- The authoritative Validation revision: Passing holds a value, Failing
holds an ordered list of message strings. -/
inductive Validation (T : Type) : Type where
  | Passing : T → Validation T
  | Failing : List String → Validation T
deriving DecidableEq

/-- concat of the authoritative Validation revision.  Passing.concat
returns the other operand.  Failing.concat returns, against another
Failing, a new Failing holding the messages of the receiver followed by
the messages of the argument, and, against a Passing, the receiver
itself. -/
def Validation.concat : Validation T → Validation R → Validation R
  | .Passing _, v => v
  | .Failing m, .Failing m2 => .Failing (m ++ m2)
  | .Failing m, .Passing _ => .Failing m

/-- The older Validation revision, with variants Success and Failure. -/
inductive ValidationOld (T : Type) : Type where
  | Success : T → ValidationOld T
  | Failure : List String → ValidationOld T
deriving DecidableEq

/-- concat of the older Validation revision.  Success.concat returns the
other operand.  Failure.concat builds, against another Failure, the
merged list with the messages of the argument first and the messages of
the receiver after them, and, against a Success, returns the receiver. -/
def ValidationOld.concat : ValidationOld T → ValidationOld R → ValidationOld R
  | .Success _, v => v
  | .Failure m, .Failure m2 => .Failure (m2 ++ m)
  | .Failure m, .Success _ => .Failure m

/-- Claim C1: whenever a.ap b returns normally, the params of the result
equal the params of the value side b, across all variant combinations of
a and b, including the defensive branch where a is a Data whose held
value is not callable. -/
theorem ap_params_flow_from_value_side {A B Q QVal : Type}
    (a : Resource (FnVal A B) Q) (b : Resource A QVal) (r : Resource B QVal)
    (h : Resource.ap a b = Except.ok r) : r.params = b.params := by
  cases a with
  | Data v q =>
      cases v with
      | notCallable pv =>
          simp [Resource.ap] at h
          subst h
          rfl
      | callable f =>
          cases b with
          | Data bv bp =>
              cases hfv : f bv with
              | ok rv =>
                  simp [Resource.ap, Resource.map, hfv] at h
                  subst h
                  rfl
              | error e =>
                  simp [Resource.ap, Resource.map, hfv] at h
          | Query p =>
              simp [Resource.ap] at h
              subst h
              rfl
          | Empty p =>
              simp [Resource.ap] at h
              subst h
              rfl
          | Failure m p =>
              simp [Resource.ap] at h
              subst h
              rfl
  | Query q =>
      simp [Resource.ap] at h
      subst h
      rfl
  | Empty q =>
      simp [Resource.ap] at h
      subst h
      rfl
  | Failure m q =>
      simp [Resource.ap] at h
      subst h
      rfl

/-- Witness for claim C1: a Failure function side with params 1 against a
Data value side with params 2, where ap returns normally and the params
of the result equal the params of the value side. -/
theorem ap_params_flow_from_value_side_witness :
    Resource.ap (Resource.Failure ["e"] (1 : Int) : Resource (FnVal Int Int) Int)
        (Resource.Data (5 : Int) (2 : Int))
      = Except.ok (Resource.Failure ["e"] 2)
    ∧ Resource.params (Resource.Failure ["e"] (2 : Int) : Resource Int Int)
      = Resource.params (Resource.Data (5 : Int) (2 : Int)) :=
  ⟨rfl,
   ap_params_flow_from_value_side
     (Resource.Failure ["e"] (1 : Int) : Resource (FnVal Int Int) Int)
     (Resource.Data (5 : Int) (2 : Int))
     (Resource.Failure ["e"] 2) rfl⟩

/-- Claim C2: on the authoritative revision, Data.map applies fn and
keeps the params when fn returns normally, and propagates the exception
to the caller when fn throws, with no capture into Failure; Query, Empty
and Failure return the same instance from map. -/
theorem map_is_unguarded (T Q R : Type) (fn : T → Except JSException R) :
    (∀ (v : T) (p : Q) (r : R), fn v = Except.ok r →
        Resource.map (Resource.Data v p) fn = Except.ok (Resource.Data r p))
    ∧ (∀ (v : T) (p : Q) (e : JSException), fn v = Except.error e →
        Resource.map (Resource.Data v p) fn = Except.error e)
    ∧ (∀ p : Q, Resource.map (Resource.Query p : Resource T Q) fn
        = Except.ok (Resource.Query p))
    ∧ (∀ p : Q, Resource.map (Resource.Empty p : Resource T Q) fn
        = Except.ok (Resource.Empty p))
    ∧ (∀ (m : List String) (p : Q),
        Resource.map (Resource.Failure m p : Resource T Q) fn
          = Except.ok (Resource.Failure m p)) := by
  refine ⟨?_, ?_, fun _ => rfl, fun _ => rfl, fun _ _ => rfl⟩
  · intro v p r h
    simp [Resource.map, h]
  · intro v p e h
    simp [Resource.map, h]

/-- Witness for claim C2: a normal function at 3 gives Data 4 with the
same params, and a throwing function propagates the error value. -/
theorem map_is_unguarded_witness :
    Resource.map (Resource.Data (3 : Int) (0 : Int))
        (fun v => Except.ok (v + 1)) = Except.ok (Resource.Data 4 0)
    ∧ Resource.map (Resource.Data (3 : Int) (0 : Int))
        (fun _ => (Except.error (JSException.errObj "boom") : Except JSException Int))
      = Except.error (JSException.errObj "boom") :=
  ⟨(map_is_unguarded Int Int Int (fun v => Except.ok (v + 1))).1 3 0 4 rfl,
   (map_is_unguarded Int Int Int
      (fun _ => (Except.error (JSException.errObj "boom") : Except JSException Int))).2.1
     3 0 (JSException.errObj "boom") rfl⟩

/-- Claim C3: Data.mapSafe wraps a normal result as Data with the same
params, and catches a throw as Failure of the single derived message
(the message field of an Error instance, the string coercion otherwise)
with the same params; Query, Empty and Failure return the same instance
for every fn, so fn is never consulted there. -/
theorem mapSafe_catches (T Q R : Type) :
    (∀ (fn : T → Except JSException R) (v : T) (p : Q) (r : R),
        fn v = Except.ok r →
        Resource.mapSafe (Resource.Data v p) fn = Resource.Data r p)
    ∧ (∀ (fn : T → Except JSException R) (v : T) (p : Q) (e : JSException),
        fn v = Except.error e →
        Resource.mapSafe (Resource.Data v p) fn
          = Resource.Failure [errorMessage e] p)
    ∧ (∀ (fn : T → Except JSException R) (p : Q),
        Resource.mapSafe (Resource.Query p : Resource T Q) fn
          = Resource.Query p)
    ∧ (∀ (fn : T → Except JSException R) (p : Q),
        Resource.mapSafe (Resource.Empty p : Resource T Q) fn
          = Resource.Empty p)
    ∧ (∀ (fn : T → Except JSException R) (m : List String) (p : Q),
        Resource.mapSafe (Resource.Failure m p : Resource T Q) fn
          = Resource.Failure m p)
    ∧ (∀ m : String, errorMessage (JSException.errObj m) = m)
    ∧ (∀ s : String, errorMessage (JSException.otherVal s) = s) := by
  refine ⟨?_, ?_, fun _ _ => rfl, fun _ _ => rfl, fun _ _ _ => rfl,
    fun _ => rfl, fun _ => rfl⟩
  · intro fn v p r h
    simp [Resource.mapSafe, h]
  · intro fn v p e h
    simp [Resource.mapSafe, h]

/-- Witness for claim C3: a normal function at 3 gives Data 4, and a
function throwing an Error whose message is boom gives Failure of that
message with the same params. -/
theorem mapSafe_catches_witness :
    Resource.mapSafe (Resource.Data (3 : Int) (0 : Int))
        (fun v => Except.ok (v + 1)) = Resource.Data 4 0
    ∧ Resource.mapSafe (Resource.Data (3 : Int) (0 : Int))
        (fun _ => (Except.error (JSException.errObj "boom") : Except JSException Int))
      = Resource.Failure ["boom"] 0 :=
  ⟨(mapSafe_catches Int Int Int).1 (fun v => Except.ok (v + 1)) 3 0 4 rfl,
   (mapSafe_catches Int Int Int).2.1
     (fun _ => (Except.error (JSException.errObj "boom") : Except JSException Int))
     3 0 (JSException.errObj "boom") rfl⟩

/-- Claim C4: with a Query, Empty or Failure receiver, ap rebuilds the
variant of the receiver with the params taken from the argument resource,
a Failure receiver additionally keeping its own messages, for every
argument resource and every params of the receiver. -/
theorem ap_nonData_receiver_retags (A B Q QVal : Type) (q : Q)
    (b : Resource A QVal) :
    Resource.ap (Resource.Query q : Resource (FnVal A B) Q) b
      = Except.ok (Resource.Query b.params)
    ∧ Resource.ap (Resource.Empty q : Resource (FnVal A B) Q) b
      = Except.ok (Resource.Empty b.params)
    ∧ ∀ m : List String,
        Resource.ap (Resource.Failure m q : Resource (FnVal A B) Q) b
          = Except.ok (Resource.Failure m b.params) :=
  ⟨rfl, rfl, fun _ => rfl⟩

/-- Claim C5, counterexample: a Data receiver holding the non-callable
value null, applied to a Query argument with params 1, hits the defensive
branch first and returns the diagnostic Failure, not a fresh instance of
the Query variant of the argument as the claim states for any held
value. -/
theorem ap_data_nonCallable_counterexample :
    Resource.ap
        (Resource.Data (FnVal.notCallable JSPrim.null) (0 : Int)
          : Resource (FnVal Int Int) Int)
        (Resource.Query (1 : Int) : Resource Int Int)
      = Except.ok (Resource.Failure [Resource.apNotFunctionMessage] 1)
    ∧ Resource.ap
        (Resource.Data (FnVal.notCallable JSPrim.null) (0 : Int)
          : Resource (FnVal Int Int) Int)
        (Resource.Query (1 : Int) : Resource Int Int)
      ≠ Except.ok (Resource.Query 1) := by
  refine ⟨rfl, ?_⟩
  intro h
  simp [Resource.ap] at h

/-- Claim C5, amended: with a Data receiver holding a callable value and
a non-Data argument, ap returns a fresh instance of the variant of the
argument, re-wrapping its payload (its messages when it is a Failure)
with the params of the argument; when the held value of the Data receiver
is not callable, ap instead returns the defensive diagnostic Failure with
the params of the argument, whatever the argument variant. -/
theorem ap_data_receiver_nonData_arg (A B Q QVal : Type)
    (f : A → Except JSException B) (q : Q) :
    (∀ p : QVal,
        Resource.ap (Resource.Data (FnVal.callable f) q)
            (Resource.Query p : Resource A QVal)
          = Except.ok (Resource.Query p))
    ∧ (∀ p : QVal,
        Resource.ap (Resource.Data (FnVal.callable f) q)
            (Resource.Empty p : Resource A QVal)
          = Except.ok (Resource.Empty p))
    ∧ (∀ (m : List String) (p : QVal),
        Resource.ap (Resource.Data (FnVal.callable f) q)
            (Resource.Failure m p : Resource A QVal)
          = Except.ok (Resource.Failure m p))
    ∧ (∀ (pv : JSPrim) (b : Resource A QVal),
        Resource.ap
            (Resource.Data (FnVal.notCallable pv) q : Resource (FnVal A B) Q) b
          = Except.ok (Resource.Failure [Resource.apNotFunctionMessage] b.params)) :=
  ⟨fun _ => rfl, fun _ => rfl, fun _ _ => rfl, fun _ _ => rfl⟩

/-- Claim C6: for all string lists a and b, Failing a combined with
Failing b through concat is a Failing whose message list is exactly a
followed by b: order preserved, concatenated, not deduplicated. -/
theorem failing_concat_appends (T R : Type) (a b : List String) :
    Validation.concat (Validation.Failing a : Validation T)
        (Validation.Failing b : Validation R)
      = Validation.Failing (a ++ b) := rfl

/-- Claim C7: overPromise never leaves the returned promise rejected once
the input promise settles: a fulfilled input with value v yields a
promise fulfilled with Data of v and the given params, and a rejected
input with value e yields a promise fulfilled with Failure of the single
derived message of e (message field of an Error instance, string coercion
otherwise) and the given params. -/
theorem overPromise_resolves (R Q : Type) (q : Q) (p : PromiseOutcome R) :
    (∀ v : R, p = PromiseOutcome.fulfilled v →
        overPromise q p = PromiseOutcome.fulfilled (Resource.Data v q))
    ∧ (∀ e : JSException, p = PromiseOutcome.rejected e →
        overPromise q p
          = PromiseOutcome.fulfilled (Resource.Failure [errorMessage e] q))
    ∧ ∀ e : JSException, overPromise q p ≠ PromiseOutcome.rejected e := by
  refine ⟨?_, ?_, ?_⟩
  · rintro v rfl
    rfl
  · rintro e rfl
    rfl
  · intro e h
    cases p <;> simp [overPromise, promiseThen] at h

/-- Witness for claim C7: a promise rejected with an Error whose message
is bad resolves to Failure of that message, and a promise fulfilled with
42 resolves to Data 42, both with the given params. -/
theorem overPromise_resolves_witness :
    overPromise (1 : Int)
        (PromiseOutcome.rejected (JSException.errObj "bad") : PromiseOutcome Int)
      = PromiseOutcome.fulfilled (Resource.Failure ["bad"] 1)
    ∧ overPromise (1 : Int) (PromiseOutcome.fulfilled (42 : Int))
      = PromiseOutcome.fulfilled (Resource.Data 42 1) :=
  ⟨(overPromise_resolves Int Int 1
      (PromiseOutcome.rejected (JSException.errObj "bad"))).2.1
     (JSException.errObj "bad") rfl,
   (overPromise_resolves Int Int 1 (PromiseOutcome.fulfilled 42)).1 42 rfl⟩

/-- Claim C8, counterexample: at message lists a = [x] and b = [y], the
older revision merges Failure a with Failure b into the list [y, x],
while the authoritative revision merges Failing a with Failing b into
[x, y], and these two message lists differ, so the two revisions do not
agree on failure combination. -/
theorem concat_revisions_disagree :
    ValidationOld.concat (ValidationOld.Failure ["x"] : ValidationOld Unit)
        (ValidationOld.Failure ["y"] : ValidationOld Unit)
      = ValidationOld.Failure ["y", "x"]
    ∧ Validation.concat (Validation.Failing ["x"] : Validation Unit)
        (Validation.Failing ["y"] : Validation Unit)
      = Validation.Failing ["x", "y"]
    ∧ (["y", "x"] : List String) ≠ ["x", "y"] := by
  refine ⟨rfl, rfl, ?_⟩
  decide

/-- Claim C8, amended: the two revisions merge the same messages but in
opposite orders: the older revision combines Failure a with Failure b
into b followed by a, the authoritative revision combines Failing a with
Failing b into a followed by b, and the two merged lists are permutations
of each other; the revisions agree exactly when the two concatenations
coincide. -/
theorem concat_revisions_agree_up_to_order (a b : List String) :
    ValidationOld.concat (ValidationOld.Failure a : ValidationOld Unit)
        (ValidationOld.Failure b : ValidationOld Unit)
      = ValidationOld.Failure (b ++ a)
    ∧ Validation.concat (Validation.Failing a : Validation Unit)
        (Validation.Failing b : Validation Unit)
      = Validation.Failing (a ++ b)
    ∧ (b ++ a).Perm (a ++ b) :=
  ⟨rfl, rfl, List.perm_append_comm⟩

/-- Claim C9: when both sides of ap are Failures, the result is a Failure
whose messages are exactly the messages m1 of the receiver and whose
params are the params p2 of the value side: the messages m2 of the value
side are discarded, never merged. -/
theorem failure_ap_failure_keeps_own_messages (A B Q QVal : Type)
    (m1 m2 : List String) (p1 : Q) (p2 : QVal) :
    Resource.ap (Resource.Failure m1 p1 : Resource (FnVal A B) Q)
        (Resource.Failure m2 p2 : Resource A QVal)
      = Except.ok (Resource.Failure m1 p2) := rfl

/-- Claim C10: Data.getDataOr returns the stored value and never
consults the fallback, for every stored value, in particular for the
JavaScript values undefined and null, and for every fallback. -/
theorem data_getDataOr_returns_value :
    (∀ (T Q : Type) (v fallback : T) (q : Q),
        Resource.getDataOr (Resource.Data v q) fallback = v)
    ∧ (∀ (fallback : JSPrim) (q : Int),
        Resource.getDataOr (Resource.Data JSPrim.undef q) fallback
          = JSPrim.undef)
    ∧ (∀ (fallback : JSPrim) (q : Int),
        Resource.getDataOr (Resource.Data JSPrim.null q) fallback
          = JSPrim.null) :=
  ⟨fun _ _ _ _ _ => rfl, fun _ _ => rfl, fun _ _ => rfl⟩

end PhantomStories
